import Mathlib

/-!
Shallow embedding of the authentication core of a small FastAPI backend for a
veterinary clinic (single source file `app.py`).  The embedded parts are the
credential hasher (`hash_password` / `verify_password`, wrapping the `bcrypt`
library), the token service (`create_access_token` / `verify_token`, wrapping
the PyJWT library, imported as `jwt`), and the request handlers `login_user`,
`verify_client`, `create_cliente` and `create_funcionario`.

External libraries and services are modelled explicitly:

* The `bcrypt` library (pyca/bcrypt).  A Python string in the role of a stored
  hash is represented by `BcryptStr`: either a well-formed salted hash or a
  malformed string that bcrypt cannot parse.  The digest is idealized as
  collision-free, so equality of digests under a common salt coincides with
  equality of the hashed passwords (the spec itself only asserts inequality
  "with overwhelming probability"; the idealization makes it exact).
  `bcrypt.checkpw` re-hashes with the salt extracted from the stored hash and
  compares; it raises `ValueError` with message `Invalid salt` when the stored
  hash cannot be parsed (its salt-prefix parser rejects the input), which the
  model reproduces.

* The PyJWT library.  HS256 encoding of a claims dict under a key is
  deterministic, so a compact token string is represented by `JwtStr`: either
  `signed payload key` (the encoding of `payload` under `key`) or `corrupt s`
  (any other string: structurally malformed, or with a signature that does not
  verify — in particular any single-character modification of a signed token,
  since the HMAC signature binds header and payload).  `jwt.decode` checks the
  signature first and the `exp` claim second.  PyJWT defines exceptions
  `ExpiredSignatureError` and `InvalidTokenError` (with its subclasses), but no
  attribute `JWTError` — that name belongs to the python-jose package.  The
  source's `except jwt.JWTError` clause therefore raises `AttributeError` as
  soon as it is evaluated, which the model of `verify_token` reproduces.

* The remote table store (supabase) is an explicit parameter: `db : Db` maps a
  table name and a `correo` filter value to the returned row list, and the
  insertion endpoints take the insert operation as a function argument.

Randomness (salt generation) and the current clock are passed as explicit
arguments; times are in seconds.  UTF-8 encode/decode round-trips performed by
the source are identities at this level and are elided.
-/

deriving instance DecidableEq for Except

namespace PetHealth

/-- Python exceptions relevant to the embedded code paths. -/
inductive PyErr
  | valueError (msg : String)
  | attributeError (msg : String)
deriving DecidableEq

/-- An exception escaping a handler body: either a `fastapi.HTTPException`
(status code and detail) or another Python exception.  `HTTPException` is a
subclass of `Exception`, so a blanket `except Exception` catches both kinds. -/
inductive PyExn
  | http (status : Nat) (detail : String)
  | py (e : PyErr)
deriving DecidableEq

/-- Observable outcome of a request handler: a normal return value, an
`HTTPException` surfaced to the framework (which renders it with its status
code and detail), or an unhandled Python exception (which the framework
renders as an internal server error). -/
inductive PyResult (α : Type)
  | ok (a : α)
  | httpError (status : Nat) (detail : String)
  | pyError (e : PyErr)
deriving DecidableEq

/-- Modelled from the spec and the bcrypt library (a dependency, not part of
src/): a Python string in the role of a bcrypt stored hash.  `wf salt pwd` is
the printable encoding, embedding `salt`, of the digest of password `pwd`
under `salt` (the digest idealized as collision-free, so the pair
`(salt, pwd)` determines the string and vice versa); `malformed s` is any
string `s` that bcrypt's salt-prefix parser rejects. -/
inductive BcryptStr
  | wf (salt : Nat) (pwd : String)
  | malformed (s : String)
deriving DecidableEq

/-- `bcrypt.hashpw(password, salt)` with a freshly generated salt: produces
the well-formed hash of `password` under `salt`. -/
def bcrypt_hashpw (password : String) (salt : Nat) : BcryptStr :=
  .wf salt password

/-- `bcrypt.checkpw(password, hashed)`: re-hashes `password` under the salt
embedded in `hashed` and compares the results in constant time.  Library
behavior on malformed input: `checkpw` calls `hashpw`, whose salt parser
raises `ValueError` with message `Invalid salt`. -/
def bcrypt_checkpw (password : String) (hashed : BcryptStr) : Except PyErr Bool :=
  match hashed with
  | .wf _ pwd => .ok (password == pwd)
  | .malformed _ => .error (.valueError ("Invalid salt"))

/-- src/app.py lines 85-88: `hash_password` generates a salt with
`bcrypt.gensalt()` (passed here as the explicit argument `salt`) and returns
`bcrypt.hashpw` of the password under it. -/
def hash_password (plain_password : String) (salt : Nat) : BcryptStr :=
  bcrypt_hashpw plain_password salt

/-- src/app.py lines 91-92: `verify_password` is exactly `bcrypt.checkpw`. -/
def verify_password (plain_password : String) (hashed_password : BcryptStr) :
    Except PyErr Bool :=
  bcrypt_checkpw plain_password hashed_password

/-- The claims dict carried by the app's tokens: the `sub` claim set by the
caller (`data` is always `{"sub": ...}` in this app) and the `exp` claim added
by `create_access_token`. -/
structure JwtPayload where
  sub : String
  exp : Nat
deriving DecidableEq

/-- Modelled from the spec and the PyJWT library (a dependency, not part of
src/): a Python string in the role of a compact JWT.  `signed payload key` is
the deterministic HS256 encoding of `payload` under `key`; `corrupt s` is any
string that is not such an encoding (malformed, or failing signature
verification — including every single-character modification of a signed
token, since the signature binds header and payload). -/
inductive JwtStr
  | signed (payload : JwtPayload) (key : String)
  | corrupt (s : String)
deriving DecidableEq

/-- The two classes of decode failure raised by `jwt.decode`:
`ExpiredSignatureError` (a valid signature but `exp` in the past) and every
other `InvalidTokenError` (bad signature or malformed structure). -/
inductive JwtError
  | expiredSignature
  | invalidToken
deriving DecidableEq

/-- `jwt.decode(token, key, algorithms=["HS256"])` evaluated at current time
`now`: the signature is checked first; with a valid signature the `exp` claim
is checked, the token counting as expired exactly when `exp < now`. -/
def jwt_decode (token : JwtStr) (key : String) (now : Nat) :
    Except JwtError JwtPayload :=
  match token with
  | .signed payload k =>
      if k == key then
        if payload.exp < now then .error .expiredSignature else .ok payload
      else .error .invalidToken
  | .corrupt _ => .error .invalidToken

/-- The absolute expiry stamped by `create_access_token` issued at time `now`:
`now + expires_delta` when a delta is supplied, and `now + 30` minutes
otherwise.  Python's `if expires_delta:` tests truthiness, so both `None` and
`timedelta(0)` select the default. -/
def access_token_expire (expires_delta : Option Nat) (now : Nat) : Nat :=
  match expires_delta with
  | some d => if d = 0 then now + 30 * 60 else now + d
  | none => now + 30 * 60

/-- src/app.py lines 95-103: copies `data` (here: its `sub` claim), adds the
`exp` claim, and signs with the process-wide `SECRET_KEY` (the explicit
argument `key`). -/
def create_access_token (key : String) (sub : String)
    (expires_delta : Option Nat) (now : Nat) : JwtStr :=
  .signed ⟨sub, access_token_expire expires_delta now⟩ key

/-- src/app.py lines 106-113: decodes the token with `SECRET_KEY`.  An
`ExpiredSignatureError` is caught and turned into `HTTPException(401,
"Token expirado")`.  The second clause reads `except jwt.JWTError` — PyJWT has
no attribute `JWTError`, so for any other decode failure evaluating that
clause raises `AttributeError`, and the `HTTPException(401, "Token inválido")`
body below it is unreachable. -/
def verify_token (key : String) (token : JwtStr) (now : Nat) :
    PyResult JwtPayload :=
  match jwt_decode token key now with
  | .ok payload => .ok payload
  | .error .expiredSignature => .httpError 401 ("Token expirado")
  | .error .invalidToken =>
      .pyError (.attributeError ("module jwt has no attribute JWTError"))

/-- `str(e)` for the exceptions above: starlette's `HTTPException.__str__`
renders `"{status_code}: {detail}"`; `ValueError` and `AttributeError`
stringify as their message. -/
def exn_str : PyExn → String
  | .http status detail => toString status ++ ": " ++ detail
  | .py (.valueError msg) => msg
  | .py (.attributeError msg) => msg

/-- The `try: ... except Exception as e: raise HTTPException(500, str(e))`
wrapper the CRUD handlers put around their bodies.  `except Exception` also
catches an `HTTPException` raised inside the body (it is an `Exception`
subclass), replacing its status code with 500. -/
def try_except_500 {α : Type} (body : Except PyExn α) : PyResult α :=
  match body with
  | .ok a => .ok a
  | .error e => .httpError 500 (exn_str e)

/-- A stored user row as returned by the table store, restricted to the
fields the auth flow reads: `correo` and the stored `contraseña` hash
(field spelled `contrasena` here). -/
structure UserRow where
  correo : String
  contrasena : BcryptStr
deriving DecidableEq

/-- Modelled from the spec: the remote table store (Entity Gateway).
`db table correo` is `supabase.table(table).select("*")
.eq("correo", correo).execute().data`. -/
abbrev Db : Type := String → String → List UserRow

/-- src/app.py lines 79-82: the `/login/` request body. -/
structure LoginRequest where
  correo : String
  contrasena : String
  role : String

/-- src/app.py line 239: `table = "Clientes" if login_data.role == "cliente"
else "Funcionario"`. -/
def login_table (role : String) : String :=
  if role == "cliente" then "Clientes" else "Funcionario"

/-- The `/login/` success body: `{"access_token": token,
"token_type": "bearer"}`. -/
structure TokenResponse where
  access_token : JwtStr
  token_type : String
deriving DecidableEq

/-- src/app.py lines 237-251: `/login/`.  Selects the table from the role,
fetches rows matching `correo`; an empty result or a failed `bcrypt.checkpw`
both raise `HTTPException(400, "Correo o contraseña incorrectos")`; on success
issues a 30-minute token for the stored `correo`.  There is no `try/except`
here, so a `ValueError` from `bcrypt.checkpw` propagates unhandled. -/
def login_user (key : String) (db : Db) (ld : LoginRequest) (now : Nat) :
    PyResult TokenResponse :=
  match db (login_table ld.role) ld.correo with
  | [] => .httpError 400 ("Correo o contraseña incorrectos")
  | user :: _ =>
    match bcrypt_checkpw ld.contrasena user.contrasena with
    | .error e => .pyError e
    | .ok false => .httpError 400 ("Correo o contraseña incorrectos")
    | .ok true =>
        .ok ⟨create_access_token key user.correo (some (30 * 60)) now, "bearer"⟩

/-- src/app.py lines 216-231: the body of `/verify-client/` inside the `try`.
Looks up the client by `correo`; raises `HTTPException(404)` when absent;
otherwise compares the password against the stored hash (a `ValueError` from
a malformed stored hash escapes as a Python exception) and returns one of the
two 200 messages. -/
def verify_client_body (db : Db) (correo contrasena : String) :
    Except PyExn String :=
  match db ("Clientes") correo with
  | [] => .error (.http 404 ("Cliente no encontrado"))
  | cliente :: _ =>
    match verify_password contrasena cliente.contrasena with
    | .error e => .error (.py e)
    | .ok true => .ok ("Contraseña correcta")
    | .ok false => .ok ("Contraseña incorrecta")

/-- src/app.py lines 214-234: `/verify-client/` is its body wrapped in the
blanket `try/except` that re-raises every exception — the body's own
`HTTPException(404)` included — as `HTTPException(500, str(e))`. -/
def verify_client (db : Db) (correo contrasena : String) : PyResult String :=
  try_except_500 (verify_client_body db correo contrasena)

/-- src/app.py lines 47-50: the `/clientes/` request body. -/
structure Cliente where
  nombre_usuario : String
  correo : String
  contrasena : String

/-- The row dict forwarded to `supabase.table("Clientes").insert(...)`:
the request fields with `contraseña` replaced by the stored hash. -/
structure ClienteRow where
  nombre_usuario : String
  correo : String
  contrasena : BcryptStr
deriving DecidableEq

/-- src/app.py lines 166-168: hash the submitted password with a fresh salt
and replace the `contraseña` field of the dict with the hash. -/
def create_cliente_row (cliente : Cliente) (salt : Nat) : ClienteRow :=
  { nombre_usuario := cliente.nombre_usuario
    correo := cliente.correo
    contrasena := hash_password cliente.contrasena salt }

/-- The success body of the insertion endpoints:
`{"message": ..., "data": response.data}`. -/
structure CreateResponse (ρ : Type) where
  message : String
  data : List ρ
deriving DecidableEq

/-- The body of `/clientes/` inside the `try`: forwards the hashed row to the
insert operation `ins` (the supabase insert into `"Clientes"`); any exception
from the storage layer escapes to the wrapper. -/
def create_cliente_body (ins : ClienteRow → Except PyExn (List ClienteRow))
    (cliente : Cliente) (salt : Nat) : Except PyExn (CreateResponse ClienteRow) :=
  match ins (create_cliente_row cliente salt) with
  | .error e => .error e
  | .ok d => .ok ⟨"Cliente creado", d⟩

/-- src/app.py lines 163-172: `/clientes/`, body wrapped in the blanket
`try/except` that surfaces any failure as `HTTPException(500, str(e))`. -/
def create_cliente (ins : ClienteRow → Except PyExn (List ClienteRow))
    (cliente : Cliente) (salt : Nat) : PyResult (CreateResponse ClienteRow) :=
  try_except_500 (create_cliente_body ins cliente salt)

/-- src/app.py lines 68-72: the `/funcionarios/` request body. -/
structure Funcionario where
  nombre : String
  puesto : String
  correo : String
  contrasena : String

/-- The row dict forwarded to `supabase.table("Funcionario").insert(...)`. -/
structure FuncionarioRow where
  nombre : String
  puesto : String
  correo : String
  contrasena : BcryptStr
deriving DecidableEq

/-- src/app.py lines 205-207: hash the submitted password with a fresh salt
and replace the `contraseña` field of the dict with the hash. -/
def create_funcionario_row (f : Funcionario) (salt : Nat) : FuncionarioRow :=
  { nombre := f.nombre
    puesto := f.puesto
    correo := f.correo
    contrasena := hash_password f.contrasena salt }

/-- The body of `/funcionarios/` inside the `try`. -/
def create_funcionario_body
    (ins : FuncionarioRow → Except PyExn (List FuncionarioRow))
    (f : Funcionario) (salt : Nat) : Except PyExn (CreateResponse FuncionarioRow) :=
  match ins (create_funcionario_row f salt) with
  | .error e => .error e
  | .ok d => .ok ⟨"Funcionario creado", d⟩

/-- src/app.py lines 202-211: `/funcionarios/`, body wrapped in the blanket
`try/except` that surfaces any failure as `HTTPException(500, str(e))`. -/
def create_funcionario (ins : FuncionarioRow → Except PyExn (List FuncionarioRow))
    (f : Funcionario) (salt : Nat) : PyResult (CreateResponse FuncionarioRow) :=
  try_except_500 (create_funcionario_body ins f salt)

/-! Helper lemmas shared by the claim theorems. -/

/-- Decoding a token against the key it was signed with reduces to the expiry
check. -/
theorem verify_token_signed (key : String) (p : JwtPayload) (now : Nat) :
    verify_token key (.signed p key) now =
      if p.exp < now then .httpError 401 ("Token expirado") else .ok p := by
  unfold verify_token jwt_decode
  simp only [beq_self_eq_true, if_true]
  by_cases h : p.exp < now <;> simp [h]

/-- The expiry stamp is strictly monotone in the issue time, for any fixed
delta configuration. -/
theorem access_token_expire_inj (d : Option Nat) {t1 t2 : Nat} (h : t1 ≠ t2) :
    access_token_expire d t1 ≠ access_token_expire d t2 := by
  cases d with
  | none => simp only [access_token_expire]; omega
  | some v =>
      by_cases hv : v = 0 <;> simp only [access_token_expire, hv, if_true, if_false] <;> omega

/-! Claim theorems. -/

/-- Claim C1: verifying a secret against the stored hash produced from that
secret succeeds (`.ok true`), and verifying a different secret against that
stored hash returns `.ok false` — under the collision-free idealization of
the bcrypt digest, whatever salts the two hashing calls drew. -/
theorem c1_verify_of_hash (S1 S2 : String) (salt1 salt2 : Nat) (h : S1 ≠ S2) :
    verify_password S1 (hash_password S1 salt1) = .ok true ∧
    verify_password S1 (hash_password S2 salt2) = .ok false := by
  constructor
  · simp [verify_password, hash_password, bcrypt_checkpw, bcrypt_hashpw]
  · simp [verify_password, hash_password, bcrypt_checkpw, bcrypt_hashpw, h]

/-- Witness for C1 at `S1 = "a"`, `S2 = "b"`. -/
theorem c1_witness :
    verify_password "a" (hash_password "a" 0) = .ok true ∧
    verify_password "a" (hash_password "b" 1) = .ok false :=
  c1_verify_of_hash "a" "b" 0 1 (by decide)

/-- Claim C4, counterexample: on a malformed stored hash (for instance the
empty string) `verify_password` does not return a boolean — it raises the
library's `ValueError`, contradicting the claim that it returns `false` and
never raises. -/
theorem c4_counterexample :
    verify_password "x" (BcryptStr.malformed "") =
      .error (.valueError ("Invalid salt")) ∧
    decide (verify_password "x" (BcryptStr.malformed "") = .ok false) = false :=
  ⟨rfl, rfl⟩

/-- Claim C4, amended: for every well-formed stored hash `verify_password`
returns a boolean without raising, but for every malformed stored hash it
raises `ValueError` (surfacing as an unhandled exception or a 500, depending
on the caller) instead of returning `false`. -/
theorem c4_amended (p : String) (salt : Nat) (pwd s : String) :
    verify_password p (.wf salt pwd) = .ok (p == pwd) ∧
    verify_password p (.malformed s) = .error (.valueError ("Invalid salt")) :=
  ⟨rfl, rfl⟩

/-- Claim C8: hashing the same secret with two distinct fresh salts yields
distinct stored-hash strings, and both verify true against the secret. -/
theorem c8_fresh_salt (S : String) (s1 s2 : Nat) (h : s1 ≠ s2) :
    hash_password S s1 ≠ hash_password S s2 ∧
    verify_password S (hash_password S s1) = .ok true ∧
    verify_password S (hash_password S s2) = .ok true := by
  refine ⟨?_, ?_, ?_⟩
  · intro hc
    simp only [hash_password, bcrypt_hashpw, BcryptStr.wf.injEq] at hc
    exact h hc.1
  · simp [verify_password, hash_password, bcrypt_checkpw, bcrypt_hashpw]
  · simp [verify_password, hash_password, bcrypt_checkpw, bcrypt_hashpw]

/-- Witness for C8 at `S = "a"`, salts 0 and 1. -/
theorem c8_witness :
    hash_password "a" 0 ≠ hash_password "a" 1 ∧
    verify_password "a" (hash_password "a" 0) = .ok true ∧
    verify_password "a" (hash_password "a" 1) = .ok true :=
  c8_fresh_salt "a" 0 1 (by decide)

/-- Claim C10: the login table is `"Clientes"` exactly for the role string
`"cliente"`, and `"Funcionario"` for every other role string — no validation
against the role set happens. -/
theorem c10_role_fallthrough (role : String) (h : role ≠ "cliente") :
    login_table "cliente" = "Clientes" ∧ login_table role = "Funcionario" := by
  refine ⟨rfl, ?_⟩
  simp [login_table, h]

/-- Witness for C10 at the unrecognized role `"admin"`. -/
theorem c10_witness :
    login_table "cliente" = "Clientes" ∧ login_table "admin" = "Funcionario" :=
  c10_role_fallthrough "admin" (by decide)

/-- Claim C2: a token issued for subject `subj` (with any delta, the default
being 30 minutes) verifies before its embedded expiry to the payload carrying
`subj`, and after its embedded expiry fails with
`HTTPException(401, "Token expirado")`. -/
theorem c2_issue_verify (key subj : String) (d : Option Nat) (tIssue tNow : Nat) :
    (tNow < access_token_expire d tIssue →
      verify_token key (create_access_token key subj d tIssue) tNow =
        .ok ⟨subj, access_token_expire d tIssue⟩) ∧
    (access_token_expire d tIssue < tNow →
      verify_token key (create_access_token key subj d tIssue) tNow =
        .httpError 401 ("Token expirado")) := by
  constructor
  · intro hlt
    rw [create_access_token, verify_token_signed]
    exact if_neg (Nat.lt_asymm hlt)
  · intro hgt
    rw [create_access_token, verify_token_signed]
    exact if_pos hgt

/-- Witness for C2: a default-TTL token issued at time 0 verifies at time 10
and is rejected as expired at time 2000 (the default TTL being 1800 s). -/
theorem c2_witness :
    verify_token "k" (create_access_token "k" "alice" none 0) 10 =
      .ok ⟨"alice", 1800⟩ ∧
    verify_token "k" (create_access_token "k" "alice" none 0) 2000 =
      .httpError 401 ("Token expirado") :=
  ⟨(c2_issue_verify "k" "alice" none 0 10).1 (by decide),
   (c2_issue_verify "k" "alice" none 0 2000).2 (by decide)⟩

/-- Claim C7: a tampered token (any string that is not a well-signed token,
which includes every single-character modification of an issued one) makes
`verify_token` raise `AttributeError` — PyJWT has no `jwt.JWTError`, so the
clause meant to produce `HTTPException(401, "Token inválido")` blows up
before it can, and that 401 response is never produced. -/
theorem c7_tampered_attribute_error (key s : String) (now : Nat) :
    verify_token key (JwtStr.corrupt s) now =
      .pyError (.attributeError ("module jwt has no attribute JWTError")) ∧
    decide (verify_token key (JwtStr.corrupt s) now =
      .httpError 401 ("Token inválido")) = false :=
  ⟨rfl, rfl⟩

/-- Claim C9: tokens issued for the same subject at two distinct times are
distinct as strings (their expiry stamps differ), and each verifies to its
payload carrying that subject at any time up to its own expiry. -/
theorem c9_distinct_tokens (key sub : String) (d : Option Nat) (t1 t2 : Nat)
    (h : t1 ≠ t2) :
    create_access_token key sub d t1 ≠ create_access_token key sub d t2 ∧
    (∀ now, now ≤ access_token_expire d t1 →
      verify_token key (create_access_token key sub d t1) now =
        .ok ⟨sub, access_token_expire d t1⟩) ∧
    (∀ now, now ≤ access_token_expire d t2 →
      verify_token key (create_access_token key sub d t2) now =
        .ok ⟨sub, access_token_expire d t2⟩) := by
  refine ⟨?_, ?_, ?_⟩
  · intro hc
    simp only [create_access_token, JwtStr.signed.injEq, JwtPayload.mk.injEq] at hc
    exact access_token_expire_inj d h hc.1.2
  · intro now hnow
    rw [create_access_token, verify_token_signed]
    exact if_neg (Nat.not_lt.mpr hnow)
  · intro now hnow
    rw [create_access_token, verify_token_signed]
    exact if_neg (Nat.not_lt.mpr hnow)

/-- Witness for C9: tokens for `"alice"` issued at times 0 and 5 differ, and
each verifies to its payload at a time within its own lifetime. -/
theorem c9_witness :
    create_access_token "k" "alice" none 0 ≠ create_access_token "k" "alice" none 5 ∧
    verify_token "k" (create_access_token "k" "alice" none 0) 1800 =
      .ok ⟨"alice", 1800⟩ ∧
    verify_token "k" (create_access_token "k" "alice" none 5) 1805 =
      .ok ⟨"alice", 1805⟩ := by
  have h := c9_distinct_tokens "k" "alice" none 0 5 (by decide)
  exact ⟨h.1, h.2.1 1800 (by decide), h.2.2 1805 (by decide)⟩

/-- Claim C3: a login that fails because no row matches the email and a login
that fails because the stored hash does not verify produce the identical
caller-visible outcome, `HTTPException(400, "Correo o contraseña
incorrectos")`. -/
theorem c3_login_masking (key : String) (db1 db2 : Db)
    (ld1 ld2 : LoginRequest) (now1 now2 : Nat) (u : UserRow) (rest : List UserRow)
    (h1 : db1 (login_table ld1.role) ld1.correo = [])
    (h2 : db2 (login_table ld2.role) ld2.correo = u :: rest)
    (h3 : bcrypt_checkpw ld2.contrasena u.contrasena = .ok false) :
    login_user key db1 ld1 now1 =
      .httpError 400 ("Correo o contraseña incorrectos") ∧
    login_user key db2 ld2 now2 =
      .httpError 400 ("Correo o contraseña incorrectos") ∧
    login_user key db1 ld1 now1 = login_user key db2 ld2 now2 := by
  have a1 : login_user key db1 ld1 now1 =
      .httpError 400 ("Correo o contraseña incorrectos") := by
    simp [login_user, h1]
  have a2 : login_user key db2 ld2 now2 =
      .httpError 400 ("Correo o contraseña incorrectos") := by
    simp [login_user, h2, h3]
  exact ⟨a1, a2, a1.trans a2.symm⟩

/-- Witness for C3: an unknown email against an empty table and a wrong
password against a stored row produce the same 400 response. -/
theorem c3_witness :
    login_user "k" (fun _ _ => []) ⟨"a@b.com", "pw", "cliente"⟩ 0 =
      .httpError 400 ("Correo o contraseña incorrectos") ∧
    login_user "k" (fun _ _ => [⟨"a@b.com", .wf 0 "secret"⟩])
        ⟨"a@b.com", "pw", "cliente"⟩ 0 =
      .httpError 400 ("Correo o contraseña incorrectos") := by
  have h := c3_login_masking "k" (fun _ _ => [])
    (fun _ _ => [⟨"a@b.com", .wf 0 "secret"⟩])
    ⟨"a@b.com", "pw", "cliente"⟩ ⟨"a@b.com", "pw", "cliente"⟩ 0 0
    ⟨"a@b.com", .wf 0 "secret"⟩ [] rfl rfl (by decide)
  exact ⟨h.1, h.2.1⟩

/-- Claim C5 (code bug): when no client row matches, the handler's own
`HTTPException(404, "Cliente no encontrado")` is swallowed by its blanket
`except Exception` and re-raised as a 500 whose detail is the stringified
404 — the caller sees HTTP 500, not the 404 the claim states.  The two
200-message paths behave as claimed when a row exists. -/
theorem c5_verify_client_404_masked (db1 db2 : Db) (correo pw : String)
    (u : UserRow) (rest : List UserRow)
    (h1 : db1 ("Clientes") correo = [])
    (h2 : db2 ("Clientes") correo = u :: rest) :
    verify_client db1 correo pw =
      .httpError 500 ("404: Cliente no encontrado") ∧
    (verify_password pw u.contrasena = .ok true →
      verify_client db2 correo pw = .ok ("Contraseña correcta")) ∧
    (verify_password pw u.contrasena = .ok false →
      verify_client db2 correo pw = .ok ("Contraseña incorrecta")) := by
  refine ⟨?_, ?_, ?_⟩
  · simp only [verify_client, verify_client_body, try_except_500, h1, exn_str]
    rfl
  · intro hv
    simp [verify_client, verify_client_body, try_except_500, h2, hv]
  · intro hv
    simp [verify_client, verify_client_body, try_except_500, h2, hv]

/-- Witness for C5: an empty client table yields the 500-wrapped 404; a
matching row with the right password yields the 200 message. -/
theorem c5_witness :
    verify_client (fun _ _ => []) ("a@b.com") ("pw") =
      .httpError 500 ("404: Cliente no encontrado") ∧
    verify_client (fun _ _ => [⟨"a@b.com", .wf 0 "pw"⟩]) ("a@b.com") ("pw") =
      .ok ("Contraseña correcta") := by
  have h := c5_verify_client_404_masked (fun _ _ => [])
    (fun _ _ => [⟨"a@b.com", .wf 0 "pw"⟩]) ("a@b.com") ("pw")
    ⟨"a@b.com", .wf 0 "pw"⟩ [] rfl rfl
  exact ⟨h.1, h.2.1 (by decide)⟩

/-- Claim C6: both registration endpoints forward a row whose `contraseña`
field is the stored hash of the submitted secret — never the raw secret
string — and a storage-layer failure surfaces as
`HTTPException(500, str(error))`. -/
theorem c6_register_hashed (c : Cliente) (f : Funcionario) (saltC saltF : Nat)
    (insC : ClienteRow → Except PyExn (List ClienteRow))
    (insF : FuncionarioRow → Except PyExn (List FuncionarioRow))
    (eC eF : PyExn)
    (hC : insC (create_cliente_row c saltC) = .error eC)
    (hF : insF (create_funcionario_row f saltF) = .error eF) :
    (create_cliente_row c saltC).contrasena = hash_password c.contrasena saltC ∧
    (create_funcionario_row f saltF).contrasena =
      hash_password f.contrasena saltF ∧
    hash_password c.contrasena saltC ≠ BcryptStr.malformed c.contrasena ∧
    create_cliente insC c saltC = .httpError 500 (exn_str eC) ∧
    create_funcionario insF f saltF = .httpError 500 (exn_str eF) := by
  refine ⟨rfl, rfl, ?_, ?_, ?_⟩
  · intro hc
    simp [hash_password, bcrypt_hashpw] at hc
  · simp [create_cliente, create_cliente_body, try_except_500, hC]
  · simp [create_funcionario, create_funcionario_body, try_except_500, hF]

/-- Witness for C6 at a concrete client, staff member, and failing insert. -/
theorem c6_witness :
    (create_cliente_row ⟨"n", "a@b.com", "pw"⟩ 0).contrasena =
      hash_password "pw" 0 ∧
    create_cliente (fun _ => .error (.py (.valueError ("db down"))))
        ⟨"n", "a@b.com", "pw"⟩ 0 =
      .httpError 500 (exn_str (.py (.valueError ("db down")))) ∧
    create_funcionario (fun _ => .error (.py (.valueError ("db down"))))
        ⟨"n", "p", "a@b.com", "pw"⟩ 1 =
      .httpError 500 (exn_str (.py (.valueError ("db down")))) := by
  have h := c6_register_hashed ⟨"n", "a@b.com", "pw"⟩ ⟨"n", "p", "a@b.com", "pw"⟩
    0 1
    (fun _ => .error (.py (.valueError ("db down"))))
    (fun _ => .error (.py (.valueError ("db down"))))
    (.py (.valueError ("db down"))) (.py (.valueError ("db down"))) rfl rfl
  exact ⟨h.1, h.2.2.2.1, h.2.2.2.2⟩

end PetHealth
